import Mathlib

/-!
Verification of the per-guild playback scheduler of YAudioCord (src/bot.py).

The embedding models `GuildPlayer` (the per-guild session), its worker loop
`_player_loop`, the connection helper `_ensure_voice`, `start`/`stop`, and
the `MusicBot.play` command handler.  External collaborators (the discord
voice transport, yt-dlp resolution) are modelled as explicit environments
whose fields record the outcome of each external call; the worker loop is
a trace-producing function so that ordering and slot-occupancy properties
can be stated over the sequence of events it emits.
-/

/-- A resolved track (`YTDLSource`): title and stream URL, as produced by
`YTDLSource.create_source`. -/
structure Track where
  title : String
  url : String
deriving DecidableEq, Repr

/-- Status of the session's worker task (`self._task`): absent, running, or
finished (`done()`). -/
inductive TaskStatus where
  | noTask
  | running
  | taskDone
deriving DecidableEq, Repr

/-- The mutable state of one `GuildPlayer` (src/bot.py lines 313-322).
The queue holds `Option Track`: `none` is the shutdown sentinel that
`_player_loop` exits on.  `workerCreations` is a ghost counter of
`asyncio.create_task` calls made by `start()`, used to state idempotence. -/
structure PlayerState where
  queue : List (Option Track)
  current : Option Track
  voiceChannelId : Option Nat
  taskStatus : TaskStatus
  stopFlag : Bool
  loopSet : Bool
  workerCreations : Nat
deriving DecidableEq, Repr

/-- `GuildPlayer.start` (src/bot.py lines 324-330): if a task exists and is
not done, return; otherwise clear the stop flag, record the running loop and
create a new worker task. -/
def GuildPlayer.start (s : PlayerState) : PlayerState :=
  match s.taskStatus with
  | .running => s
  | _ =>
    { s with stopFlag := false,
             loopSet := true,
             taskStatus := .running,
             workerCreations := s.workerCreations + 1 }

/-- External facts `GuildPlayer.stop` consults: whether `bot.get_guild`
returns a guild and whether that guild has a `voice_client`. -/
structure StopEnv where
  hasGuild : Bool
  hasVoiceClient : Bool

/-- Observable external actions performed by `GuildPlayer.stop`. -/
structure StopObs where
  vcStopCalled : Bool
  disconnectCalled : Bool
  taskCancelRequested : Bool
deriving DecidableEq, Repr

/-- `GuildPlayer.stop` (src/bot.py lines 340-365): set the stop flag, drain
the queue with `get_nowait` until empty, clear `current`, call
`voice_client.stop()` (and optionally `disconnect`) when a live client
exists, and cancel the worker task when it is running. -/
def GuildPlayer.stop (env : StopEnv) (s : PlayerState) (disconnect : Bool) :
    PlayerState × StopObs :=
  let s1 : PlayerState :=
    { s with stopFlag := true, queue := [], current := none }
  let hasVC : Bool := env.hasGuild && env.hasVoiceClient
  let cancels : Bool := decide (s.taskStatus = .running)
  let s2 : PlayerState :=
    if s.taskStatus = .running then { s1 with taskStatus := .taskDone } else s1
  (s2, { vcStopCalled := hasVC,
         disconnectCalled := hasVC && disconnect,
         taskCancelRequested := cancels })

/-- Context of one `MusicBot.play` invocation (src/bot.py lines 478-504):
whether the message is in a guild, whether a voice client is connected
before / after the implicit `join` attempt, and the outcome of
`YTDLSource.create_source` (run under `ytdl_lock`). -/
structure PlayCtx where
  inGuild : Bool
  vcConnectedBefore : Bool
  vcConnectedAfterJoin : Bool
  resolveResult : Except String Track

/-- What `MusicBot.play` reports back to the invoking user. -/
inductive PlayCmdResult where
  | guildOnlyError
  | noVoiceAbort
  | ytdlError (msg : String)
  | queued (t : Track)
deriving DecidableEq, Repr

/-- `MusicBot.play` (src/bot.py lines 478-504): guard on guild and voice
connection, `player.start()`, resolve the query; on a resolution exception
edit the message with the error and return without touching the queue; on
success `queue.put(source)`. -/
def MusicBot.play (ctx : PlayCtx) (s : PlayerState) :
    PlayerState × PlayCmdResult :=
  if ctx.inGuild = false then (s, .guildOnlyError)
  else
    let connected : Bool :=
      if ctx.vcConnectedBefore then true else ctx.vcConnectedAfterJoin
    if connected = false then (s, .noVoiceAbort)
    else
      let s1 := GuildPlayer.start s
      match ctx.resolveResult with
      | .error e => (s1, .ytdlError e)
      | .ok src => ({ s1 with queue := s1.queue ++ [some src] }, .queued src)

/-- External facts `_ensure_voice` consults on one call: the guild lookup,
the guild's existing `voice_client` (an abstract handle) and its
connectedness, whether `get_channel` yields a `VoiceChannel`, and the result
of `channel.connect(reconnect=True, timeout=20)` — which may raise, modelled
as `Except`. -/
structure VoiceEnv where
  guildExists : Bool
  existingVC : Option Nat
  vcConnected : Nat → Bool
  channelIsVoice : Nat → Bool
  connectResult : Nat → Nat → Except String Nat

/-- The fixed join timeout passed to `channel.connect` (src/bot.py line 384). -/
def connectTimeout : Nat := 20

/-- `GuildPlayer._ensure_voice` (src/bot.py lines 367-388) with the timeout
as an explicit parameter: return the existing connected client; otherwise
fail on a missing guild, unset channel id or non-voice channel; otherwise
attempt the timed connect, catching any exception into `none`. -/
def ensureVoiceAux (env : VoiceEnv) (vcid : Option Nat) (timeout : Nat) :
    Option Nat :=
  if env.guildExists = false then none
  else
    let live : Option Nat :=
      match env.existingVC with
      | some vc => if env.vcConnected vc then some vc else none
      | none => none
    match live with
    | some vc => some vc
    | none =>
      match vcid with
      | none => none
      | some ch =>
        if env.channelIsVoice ch = false then none
        else
          match env.connectResult ch timeout with
          | .ok vc => some vc
          | .error _ => none

/-- `GuildPlayer._ensure_voice`: `ensureVoiceAux` at the fixed timeout. -/
def ensureVoice (env : VoiceEnv) (vcid : Option Nat) : Option Nat :=
  ensureVoiceAux env vcid connectTimeout

/-- Whether the environment offers a live, already-connected voice client
(the short-circuit case of `_ensure_voice`). -/
def hasLiveConn (env : VoiceEnv) : Bool :=
  env.guildExists &&
    (match env.existingVC with
     | some vc => env.vcConnected vc
     | none => false)

/-- Outcome of one `vc.play(source, after=_after)` call: starts normally,
raises `discord.ClientException`, or raises some other exception. -/
inductive PlayOutcome where
  | ok
  | clientException
  | otherException
deriving DecidableEq, Repr

/-- External facts one worker-loop iteration consults: the voice
environment of each `_ensure_voice` call, the outcome of each `vc.play`
attempt, whether the transport eventually invokes the `_after` callback for
a started play (with or without an error argument), and whether `stop()`
forces a halt while the worker waits (firing the transport callback and
cancelling the worker task). -/
structure IterEnv where
  voice1 : VoiceEnv
  play1 : PlayOutcome
  voice2 : VoiceEnv
  play2Raises : Bool
  callbackFires : Bool
  callbackErr : Bool
  halted : Bool

/-- Events emitted by the worker loop.  Each is paired in traces with the
value of `self.current` at the moment the event occurs. -/
inductive Ev where
  | dequeue (item : Option Track)
  | setCurrent (t : Track)
  | ensureVoiceCall
  | dropNoConn (t : Track)
  | playCall (t : Track)
  | raisedOut
  | finishedSetEv
  | waitFinished
  | sleepMs (n : Nat)
  | clearCurrent
  | cancelledAtWait
  | blockedAtWait
  | exitSentinel
  | exitStop
  | idleAtDequeue
deriving DecidableEq, Repr

/-- How one worker-loop iteration ends: proceed to the next dequeue, be
cancelled at the completion wait (forced halt), stay blocked forever at the
wait, or crash out of the loop on an uncaught exception. -/
inductive IterOut where
  | next
  | cancelled
  | blocked
  | crashed
deriving DecidableEq, Repr

/-- The tail of an iteration from `await finished.wait()` on (src/bot.py
lines 427-429), given whether `finished` was already set by an explicit
`finished.set()` on a failure path.  A forced halt fires the transport
callback and cancels the task, so the wait is interrupted either way; an
eventual callback sets `finished` only when `self._loop` was recorded
(`call_soon_threadsafe` guard at lines 408-409); otherwise the wait never
returns. -/
def waitPhase (env : IterEnv) (loopSet : Bool) (preSet : Bool)
    (tr : List (Ev × Option Track)) (t : Track) :
    List (Ev × Option Track) × IterOut × Option Track :=
  if preSet then
    (tr ++ [(Ev.waitFinished, some t), (Ev.sleepMs 250, some t),
            (Ev.clearCurrent, some t)], IterOut.next, none)
  else if env.halted then
    (tr ++ [(Ev.cancelledAtWait, some t)], IterOut.cancelled, none)
  else if env.callbackFires && loopSet then
    (tr ++ [(Ev.finishedSetEv, some t), (Ev.waitFinished, some t),
            (Ev.sleepMs 250, some t), (Ev.clearCurrent, some t)],
     IterOut.next, none)
  else
    (tr ++ [(Ev.blockedAtWait, some t)], IterOut.blocked, some t)

/-- One iteration of `_player_loop` after a track was dequeued (src/bot.py
lines 396-429): set `current`, attempt `_ensure_voice` (dropping the track
on failure), attempt `vc.play`; on `discord.ClientException` sleep 1s,
re-connect once and retry once, setting `finished` directly when the
re-connect or the retry fails; any other `vc.play` exception escapes the
loop body.  Returns the event trace, how the iteration ends, and the final
`current`. -/
def runIter (env : IterEnv) (loopSet : Bool) (vcid : Option Nat)
    (t : Track) (cur0 : Option Track) :
    List (Ev × Option Track) × IterOut × Option Track :=
  let tr0 : List (Ev × Option Track) :=
    [(Ev.setCurrent t, cur0), (Ev.ensureVoiceCall, some t)]
  match ensureVoice env.voice1 vcid with
  | none =>
    (tr0 ++ [(Ev.dropNoConn t, some t), (Ev.clearCurrent, some t)],
     IterOut.next, none)
  | some _ =>
    match env.play1 with
    | .ok =>
      waitPhase env loopSet false (tr0 ++ [(Ev.playCall t, some t)]) t
    | .otherException =>
      (tr0 ++ [(Ev.playCall t, some t), (Ev.raisedOut, some t)],
       IterOut.crashed, some t)
    | .clientException =>
      let trA := tr0 ++ [(Ev.playCall t, some t), (Ev.sleepMs 1000, some t),
                         (Ev.ensureVoiceCall, some t)]
      match ensureVoice env.voice2 vcid with
      | some _ =>
        if env.play2Raises then
          waitPhase env loopSet true
            (trA ++ [(Ev.playCall t, some t), (Ev.finishedSetEv, some t)]) t
        else
          waitPhase env loopSet false (trA ++ [(Ev.playCall t, some t)]) t
      | none =>
        waitPhase env loopSet true (trA ++ [(Ev.finishedSetEv, some t)]) t

/-- How a whole worker run ends: idle (blocked on an empty queue's
`dequeue`, i.e. waiting for work), sentinel exit, stop-flag exit, task
cancellation, a permanently blocked wait, or a crash. -/
inductive RunEnd where
  | idle
  | sentinel
  | stopped
  | cancelled
  | blocked
  | crashed
deriving DecidableEq, Repr

/-- `_player_loop` (src/bot.py lines 390-429) run over the current queue
contents, the same external environment applying to every iteration: check
the stop flag, dequeue, exit on the sentinel, otherwise run one iteration
and continue while it says to. -/
def playerRunGo (env : IterEnv) (loopSet stopFlag : Bool)
    (vcid : Option Nat) :
    List (Option Track) → Option Track →
    List (Ev × Option Track) × RunEnd × Option Track
  | q, cur =>
    if stopFlag then ([(Ev.exitStop, cur)], RunEnd.stopped, cur)
    else
      match q with
      | [] => ([(Ev.idleAtDequeue, cur)], RunEnd.idle, cur)
      | item :: rest =>
        let trD : List (Ev × Option Track) := [(Ev.dequeue item, cur)]
        match item with
        | none => (trD ++ [(Ev.exitSentinel, cur)], RunEnd.sentinel, cur)
        | some t =>
          match runIter env loopSet vcid t cur with
          | (trI, IterOut.next, cur2) =>
            match playerRunGo env loopSet stopFlag vcid rest cur2 with
            | (trR, e, cur3) => (trD ++ trI ++ trR, e, cur3)
          | (trI, IterOut.cancelled, cur2) =>
            (trD ++ trI, RunEnd.cancelled, cur2)
          | (trI, IterOut.blocked, cur2) =>
            (trD ++ trI, RunEnd.blocked, cur2)
          | (trI, IterOut.crashed, cur2) =>
            (trD ++ trI, RunEnd.crashed, cur2)

/-- `_player_loop` started on a session state: runs over the state's queue
with its stop flag, loop record and channel id. -/
def playerRun (env : IterEnv) (s : PlayerState) :
    List (Ev × Option Track) × RunEnd × Option Track :=
  playerRunGo env s.loopSet s.stopFlag s.voiceChannelId s.queue s.current

/-- The tracks passed to `vc.play`, in order, within a trace. -/
def playedTracks (tr : List (Ev × Option Track)) : List Track :=
  tr.filterMap (fun p =>
    match p.1 with
    | Ev.playCall t => some t
    | _ => none)

/-- Count of `_ensure_voice` calls in a trace. -/
def countEnsure (tr : List (Ev × Option Track)) : Nat :=
  (tr.filter (fun p =>
    match p.1 with
    | Ev.ensureVoiceCall => true
    | _ => false)).length

/-- Count of `vc.play` calls in a trace. -/
def countPlay (tr : List (Ev × Option Track)) : Nat :=
  (playedTracks tr).length

/-- Every `dequeue` event in the trace observed `current = none`:
`activeTrack` is cleared before each queue pop. -/
def dequeueClean (tr : List (Ev × Option Track)) : Bool :=
  tr.all (fun p =>
    match p.1 with
    | Ev.dequeue _ => decide (p.2 = none)
    | _ => true)

/-- Every `vc.play` call in the trace happened with `current` holding
exactly the track being played. -/
def playActive (tr : List (Ev × Option Track)) : Bool :=
  tr.all (fun p =>
    match p.1 with
    | Ev.playCall t => decide (p.2 = some t)
    | _ => true)

/-- Index of the first event satisfying a predicate. -/
def firstIdx (p : Ev → Bool) : List Ev → Option Nat
  | [] => none
  | e :: rest => if p e then some 0 else (firstIdx p rest).map (fun n => n + 1)

/-- The 0.25 s settle delay event. -/
def isSettleEv : Ev → Bool
  | Ev.sleepMs n => n == 250
  | _ => false

/-- The `self.current = None` event. -/
def isClearEv : Ev → Bool
  | Ev.clearCurrent => true
  | _ => false

/-- Both events occur and the first `clearCurrent` precedes the first
settle delay (the ordering the specification asserts for step 7). -/
def clearsBeforeSettle (evs : List Ev) : Bool :=
  match firstIdx isClearEv evs, firstIdx isSettleEv evs with
  | some i, some j => decide (i < j)
  | _, _ => false

/-- Both events occur and the first settle delay precedes the first
`clearCurrent` (the ordering the code actually performs). -/
def settleBeforeClear (evs : List Ev) : Bool :=
  match firstIdx isSettleEv evs, firstIdx isClearEv evs with
  | some i, some j => decide (i < j)
  | _, _ => false

/-- A session state whose worker was just started on a queue of resolved
tracks: `current` empty, stop flag clear, loop recorded. -/
def freshSession (vcid : Option Nat) (ts : List Track) : PlayerState :=
  { queue := ts.map some, current := none, voiceChannelId := vcid,
    taskStatus := .running, stopFlag := false, loopSet := true,
    workerCreations := 1 }

/-- A voice environment with a live, already-connected client. -/
def liveVoice : VoiceEnv :=
  { guildExists := true, existingVC := some 0,
    vcConnected := fun _ => true, channelIsVoice := fun _ => true,
    connectResult := fun _ _ => .ok 0 }

/-- A voice environment with no client at all and a failing join. -/
def deadVoice : VoiceEnv :=
  { guildExists := true, existingVC := none,
    vcConnected := fun _ => false, channelIsVoice := fun _ => true,
    connectResult := fun _ _ => .error "join timed out" }

/-- A fully failure-free iteration environment. -/
def goodIterEnv : IterEnv :=
  { voice1 := liveVoice, play1 := .ok, voice2 := liveVoice,
    play2Raises := false, callbackFires := true, callbackErr := false,
    halted := false }

/-- An iteration environment whose first play raises `ClientException` and
whose single retry also raises. -/
def clientExcIterEnv : IterEnv :=
  { voice1 := liveVoice, play1 := .clientException, voice2 := liveVoice,
    play2Raises := true, callbackFires := true, callbackErr := false,
    halted := false }

/-- A forced-halt environment whose transport callback never fires. -/
def haltIterEnv : IterEnv :=
  { voice1 := liveVoice, play1 := .ok, voice2 := liveVoice,
    play2Raises := false, callbackFires := false, callbackErr := false,
    halted := true }

/-- An environment in which no voice connection can be produced. -/
def noConnIterEnv : IterEnv :=
  { voice1 := deadVoice, play1 := .ok, voice2 := deadVoice,
    play2Raises := false, callbackFires := true, callbackErr := false,
    halted := false }

/-- Concrete tracks for witnesses. -/
def trackA : Track := { title := "a", url := "ua" }

def trackB : Track := { title := "b", url := "ub" }

/-- An idle session that never ran. -/
def idleSession : PlayerState :=
  { queue := [], current := none, voiceChannelId := none,
    taskStatus := .noTask, stopFlag := true, loopSet := false,
    workerCreations := 0 }

/-- A session whose worker task is currently running. -/
def runningSession : PlayerState :=
  { idleSession with taskStatus := .running, stopFlag := false,
                     loopSet := true, workerCreations := 1 }

theorem start_queue_eq (s : PlayerState) :
    (GuildPlayer.start s).queue = s.queue := by
  cases hs : s.taskStatus <;> simp [GuildPlayer.start, hs]

/-- C3: after any `stop`, the queue is empty and `current` is empty,
whatever the prior state (playing, idle, or never started) and whatever the
external situation. -/
theorem stop_clears_queue_and_current (env : StopEnv) (s : PlayerState)
    (disconnect : Bool) :
    (GuildPlayer.stop env s disconnect).1.queue = [] ∧
    (GuildPlayer.stop env s disconnect).1.current = none := by
  unfold GuildPlayer.stop
  by_cases h : s.taskStatus = .running <;> simp [h]

/-- C5: `start()` on a session whose worker task is running is a no-op (no
second worker task; the creation counter does not move); otherwise it
clears the stale stop flag, records the loop, and launches exactly one new
worker. -/
theorem start_idempotent_single_worker (s : PlayerState) :
    (s.taskStatus = .running → GuildPlayer.start s = s) ∧
    (s.taskStatus ≠ .running →
      (GuildPlayer.start s).stopFlag = false ∧
      (GuildPlayer.start s).loopSet = true ∧
      (GuildPlayer.start s).taskStatus = .running ∧
      (GuildPlayer.start s).workerCreations = s.workerCreations + 1) := by
  cases hs : s.taskStatus <;> simp [GuildPlayer.start, hs]

theorem start_idempotent_single_worker_witness :
    GuildPlayer.start runningSession = runningSession ∧
    (GuildPlayer.start idleSession).workerCreations =
      idleSession.workerCreations + 1 :=
  ⟨(start_idempotent_single_worker runningSession).1 rfl,
   ((start_idempotent_single_worker idleSession).2 (by decide)).2.2.2⟩

theorem play_queue_shape (ctx2 : PlayCtx) (s2 : PlayerState) :
    (MusicBot.play ctx2 s2).1.queue = s2.queue ∨
    ∃ t, ctx2.resolveResult = Except.ok t ∧
      (MusicBot.play ctx2 s2).1.queue = s2.queue ++ [some t] := by
  cases h2g : ctx2.inGuild
  · left; simp [MusicBot.play, h2g]
  · cases hb : ctx2.vcConnectedBefore <;> cases ha : ctx2.vcConnectedAfterJoin <;>
      rcases hr : ctx2.resolveResult with e2 | t2 <;>
        first
        | (left; simp [MusicBot.play, h2g, hb, ha, hr, start_queue_eq]; done)
        | (right; refine ⟨t2, rfl, ?_⟩
           simp [MusicBot.play, h2g, hb, ha, hr, start_queue_eq])

/-- C6: an enqueue request whose resolution fails reports the failure to
the caller and leaves the queue unchanged; moreover, on any invocation the
queue either stays unchanged or gains exactly the successfully resolved
track at its tail. -/
theorem resolution_failure_never_enqueued (ctx : PlayCtx) (s : PlayerState)
    (e : String) (hg : ctx.inGuild = true)
    (hc : ctx.vcConnectedBefore = true ∨ ctx.vcConnectedAfterJoin = true)
    (h : ctx.resolveResult = Except.error e) :
    (MusicBot.play ctx s).2 = PlayCmdResult.ytdlError e ∧
    (MusicBot.play ctx s).1.queue = s.queue ∧
    (∀ ctx2 : PlayCtx, ∀ s2 : PlayerState,
      (MusicBot.play ctx2 s2).1.queue = s2.queue ∨
      ∃ t, ctx2.resolveResult = Except.ok t ∧
        (MusicBot.play ctx2 s2).1.queue = s2.queue ++ [some t]) := by
  refine ⟨?_, ?_, fun ctx2 s2 => play_queue_shape ctx2 s2⟩
  · rcases hc with hc | hc <;> simp [MusicBot.play, hg, hc, h]
  · rcases hc with hc | hc <;>
      simp [MusicBot.play, hg, hc, h, start_queue_eq]

theorem resolution_failure_never_enqueued_witness :
    (MusicBot.play
        { inGuild := true, vcConnectedBefore := true,
          vcConnectedAfterJoin := true,
          resolveResult := Except.error "yt-dlp failed" }
        idleSession).2 = PlayCmdResult.ytdlError "yt-dlp failed" ∧
    (MusicBot.play
        { inGuild := true, vcConnectedBefore := true,
          vcConnectedAfterJoin := true,
          resolveResult := Except.error "yt-dlp failed" }
        idleSession).1.queue = idleSession.queue :=
  ⟨(resolution_failure_never_enqueued _ idleSession "yt-dlp failed" rfl
      (Or.inl rfl) rfl).1,
   (resolution_failure_never_enqueued _ idleSession "yt-dlp failed" rfl
      (Or.inl rfl) rfl).2.1⟩

/-- C8: `_ensure_voice` returns an existing connected client unchanged,
always joins with the fixed timeout 20, and turns any join failure into an
explicit `none` instead of propagating the exception. -/
theorem ensure_voice_contract :
    (∀ env : VoiceEnv, ∀ vcid : Option Nat, ∀ vc : Nat,
      env.guildExists = true → env.existingVC = some vc →
      env.vcConnected vc = true → ensureVoice env vcid = some vc) ∧
    connectTimeout = 20 ∧
    (∀ env : VoiceEnv, ∀ vcid : Option Nat,
      ensureVoice env vcid = ensureVoiceAux env vcid 20) ∧
    (∀ env : VoiceEnv, ∀ ch : Nat, ∀ e : String,
      hasLiveConn env = false → env.channelIsVoice ch = true →
      env.connectResult ch 20 = Except.error e →
      ensureVoice env (some ch) = none) := by
  refine ⟨?_, rfl, fun env vcid => rfl, ?_⟩
  · intro env vcid vc hg hvc hconn
    simp [ensureVoice, ensureVoiceAux, hg, hvc, hconn]
  · intro env ch e hlive hch hconn
    cases hg : env.guildExists
    · simp [ensureVoice, ensureVoiceAux, hg]
    · rcases hv : env.existingVC with _ | vc
      · simp [ensureVoice, ensureVoiceAux, connectTimeout, hg, hv, hch, hconn]
      · have hnc : env.vcConnected vc = false := by
          simpa [hasLiveConn, hg, hv] using hlive
        simp [ensureVoice, ensureVoiceAux, connectTimeout, hg, hv, hnc,
              hch, hconn]

theorem ensure_voice_contract_witness :
    ensureVoice liveVoice none = some 0 ∧
    ensureVoice deadVoice (some 3) = none :=
  ⟨ensure_voice_contract.1 liveVoice none 0 rfl rfl rfl,
   ensure_voice_contract.2.2.2 deadVoice 3 "join timed out" rfl rfl rfl⟩

theorem runIter_next_current (env : IterEnv) (ls : Bool) (vcid : Option Nat)
    (t : Track) (cur0 : Option Track) :
    (runIter env ls vcid t cur0).2.1 = IterOut.next →
    (runIter env ls vcid t cur0).2.2 = none := by
  rcases h1 : ensureVoice env.voice1 vcid with _ | v
  · simp [runIter, h1]
  · rcases hp : env.play1
    · by_cases hh : env.halted = true <;>
        by_cases hc : (env.callbackFires && ls) = true <;>
          simp [runIter, waitPhase, h1, hp, hh, hc]
    · rcases h2 : ensureVoice env.voice2 vcid with _ | w
      · simp [runIter, waitPhase, h1, hp, h2]
      · by_cases hr : env.play2Raises = true
        · simp [runIter, waitPhase, h1, hp, h2, hr]
        · by_cases hh : env.halted = true <;>
            by_cases hc : (env.callbackFires && ls) = true <;>
              simp [runIter, waitPhase, h1, hp, h2, hr, hh, hc]
    · simp [runIter, waitPhase, h1, hp]

theorem runIter_dequeueClean (env : IterEnv) (ls : Bool) (vcid : Option Nat)
    (t : Track) (cur0 : Option Track) :
    dequeueClean (runIter env ls vcid t cur0).1 = true := by
  rcases h1 : ensureVoice env.voice1 vcid with _ | v
  · simp [runIter, dequeueClean, h1]
  · rcases hp : env.play1
    · by_cases hh : env.halted = true <;>
        by_cases hc : (env.callbackFires && ls) = true <;>
          simp [runIter, waitPhase, dequeueClean, h1, hp, hh, hc]
    · rcases h2 : ensureVoice env.voice2 vcid with _ | w
      · simp [runIter, waitPhase, dequeueClean, h1, hp, h2]
      · by_cases hr : env.play2Raises = true
        · simp [runIter, waitPhase, dequeueClean, h1, hp, h2, hr]
        · by_cases hh : env.halted = true <;>
            by_cases hc : (env.callbackFires && ls) = true <;>
              simp [runIter, waitPhase, dequeueClean, h1, hp, h2, hr, hh, hc]
    · simp [runIter, waitPhase, dequeueClean, h1, hp]

theorem playerRunGo_dequeueClean (env : IterEnv) (ls : Bool)
    (vcid : Option Nat) :
    ∀ q : List (Option Track),
      dequeueClean (playerRunGo env ls false vcid q none).1 = true := by
  intro q
  induction q with
  | nil => simp [playerRunGo, dequeueClean]
  | cons item rest ih =>
    cases item with
    | none => simp [playerRunGo, dequeueClean]
    | some t =>
      rcases hR : runIter env ls vcid t none with ⟨trI, out, cur2⟩
      have hI : dequeueClean trI = true := by
        have h := runIter_dequeueClean env ls vcid t none
        rw [hR] at h
        exact h
      cases out
      case next =>
        have hcur : cur2 = none := by
          have h := runIter_next_current env ls vcid t none
          rw [hR] at h
          exact h rfl
        subst hcur
        simp only [playerRunGo, if_neg (by simp : ¬(false = true)),
                   hR] at ih ⊢
        simp [dequeueClean, List.all_append] at ih hI ⊢
        exact ⟨hI, ih⟩
      case cancelled =>
        simp only [playerRunGo, hR]
        simp [dequeueClean, List.all_append] at hI ⊢
        exact hI
      case blocked =>
        simp only [playerRunGo, hR]
        simp [dequeueClean, List.all_append] at hI ⊢
        exact hI
      case crashed =>
        simp only [playerRunGo, hR]
        simp [dequeueClean, List.all_append] at hI ⊢
        exact hI

theorem runIter_good (env : IterEnv) (vcid : Option Nat) (v : Nat)
    (t : Track) (cur0 : Option Track)
    (h1 : ensureVoice env.voice1 vcid = some v)
    (hp : env.play1 = PlayOutcome.ok)
    (hc : env.callbackFires = true) (hh : env.halted = false) :
    runIter env true vcid t cur0 =
      ([(Ev.setCurrent t, cur0), (Ev.ensureVoiceCall, some t),
        (Ev.playCall t, some t), (Ev.finishedSetEv, some t),
        (Ev.waitFinished, some t), (Ev.sleepMs 250, some t),
        (Ev.clearCurrent, some t)], IterOut.next, none) := by
  simp [runIter, waitPhase, h1, hp, hc, hh]

theorem playerRunGo_good (env : IterEnv) (vcid : Option Nat) (v : Nat)
    (h1 : ensureVoice env.voice1 vcid = some v)
    (hp : env.play1 = PlayOutcome.ok)
    (hc : env.callbackFires = true) (hh : env.halted = false) :
    ∀ ts : List Track,
      playedTracks (playerRunGo env true false vcid (ts.map some) none).1
        = ts ∧
      playActive (playerRunGo env true false vcid (ts.map some) none).1
        = true ∧
      (playerRunGo env true false vcid (ts.map some) none).2.1
        = RunEnd.idle ∧
      (playerRunGo env true false vcid (ts.map some) none).2.2 = none := by
  intro ts
  induction ts with
  | nil =>
    refine ⟨?_, ?_, rfl, rfl⟩
    · simp [playerRunGo, playedTracks]
    · simp [playerRunGo, playActive]
  | cons t rest ih =>
    have hIter := runIter_good env vcid v t none h1 hp hc hh
    refine ⟨?_, ?_, ?_, ?_⟩
    · simp [playerRunGo, hIter, playedTracks, List.filterMap_append]
      have h := ih.1
      simp [playedTracks] at h
      simp [h]
    · simpa [playerRunGo, hIter, playActive, List.all_append]
        using ih.2.1
    · simp [playerRunGo, hIter, ih.2.2.1]
    · simp [playerRunGo, hIter, ih.2.2.2]

/-- C1: on a session started over any queue of resolved tracks, with no
connection or playback failures, the worker plays the tracks in exact
enqueue order (strict FIFO): the `vc.play` calls list the tracks in queue
order, each play happens with `current` holding exactly the playing track,
`current` is `none` at every queue pop (one track at a time), and the run
ends idle with `current` empty. -/
theorem fifo_order_one_at_a_time (env : IterEnv) (ts : List Track)
    (vcid : Option Nat) (v : Nat)
    (h1 : ensureVoice env.voice1 vcid = some v)
    (hp : env.play1 = PlayOutcome.ok)
    (hc : env.callbackFires = true) (hh : env.halted = false) :
    playedTracks (playerRun env (freshSession vcid ts)).1 = ts ∧
    playActive (playerRun env (freshSession vcid ts)).1 = true ∧
    dequeueClean (playerRun env (freshSession vcid ts)).1 = true ∧
    (playerRun env (freshSession vcid ts)).2.1 = RunEnd.idle ∧
    (playerRun env (freshSession vcid ts)).2.2 = none := by
  have hg := playerRunGo_good env vcid v h1 hp hc hh ts
  have hd := playerRunGo_dequeueClean env true vcid (ts.map some)
  exact ⟨hg.1, hg.2.1, hd, hg.2.2.1, hg.2.2.2⟩

theorem fifo_order_one_at_a_time_witness :
    playedTracks
        (playerRun goodIterEnv (freshSession (some 1) [trackA, trackB])).1
      = [trackA, trackB] ∧
    (playerRun goodIterEnv (freshSession (some 1) [trackA, trackB])).2.1
      = RunEnd.idle :=
  ⟨(fifo_order_one_at_a_time goodIterEnv [trackA, trackB] (some 1) 0
      rfl rfl rfl rfl).1,
   (fifo_order_one_at_a_time goodIterEnv [trackA, trackB] (some 1) 0
      rfl rfl rfl rfl).2.2.2.1⟩

/-- C2: with the worker started via `start()` (which records the scheduler
loop before creating the task, so the `_after` bridge can marshal the
signal), an iteration whose play call does not crash the worker makes
forward progress whenever the transport callback eventually fires (success
or error) or a forced halt occurs: it advances to the next queued item or
leaves the wait through the cancellation `stop()` delivers — it is never
permanently blocked at the completion wait. -/
theorem halt_always_unblocks_wait (env : IterEnv) (vcid : Option Nat)
    (t : Track) (cur0 : Option Track)
    (hp : env.play1 ≠ PlayOutcome.otherException)
    (hprog : env.halted = true ∨ env.callbackFires = true) :
    (runIter env true vcid t cur0).2.1 = IterOut.next ∨
    (runIter env true vcid t cur0).2.1 = IterOut.cancelled := by
  rcases h1 : ensureVoice env.voice1 vcid with _ | v
  · left; simp [runIter, h1]
  · rcases hpp : env.play1
    · by_cases hh : env.halted = true
      · right; simp [runIter, waitPhase, h1, hpp, hh]
      · have hc : env.callbackFires = true := by
          rcases hprog with h | h
          · exact absurd h hh
          · exact h
        left; simp [runIter, waitPhase, h1, hpp, hh, hc]
    · rcases h2 : ensureVoice env.voice2 vcid with _ | w
      · left; simp [runIter, waitPhase, h1, hpp, h2]
      · by_cases hr : env.play2Raises = true
        · left; simp [runIter, waitPhase, h1, hpp, h2, hr]
        · by_cases hh : env.halted = true
          · right; simp [runIter, waitPhase, h1, hpp, h2, hr, hh]
          · have hc : env.callbackFires = true := by
              rcases hprog with h | h
              · exact absurd h hh
              · exact h
            left; simp [runIter, waitPhase, h1, hpp, h2, hr, hh, hc]
    · exact absurd hpp hp

theorem halt_always_unblocks_wait_witness :
    (runIter haltIterEnv true (some 1) trackA none).2.1 = IterOut.next ∨
    (runIter haltIterEnv true (some 1) trackA none).2.1
      = IterOut.cancelled :=
  halt_always_unblocks_wait haltIterEnv (some 1) trackA none (by decide)
    (Or.inl rfl)

/-- C4: when `vc.play` raises the "not connected" `ClientException`, the
iteration makes exactly one further `_ensure_voice` re-connect attempt
(two `_ensure_voice` calls in the whole iteration) and at most one retry
of the play call — exactly one retry when the re-connect yields a
connection, none when it does not — and any further failure (a failed
re-connect or a raising retry) drops the track: the worker continues to
the next queued item with `current` cleared. -/
theorem client_exception_single_retry (env : IterEnv) (vcid : Option Nat)
    (t : Track) (cur0 : Option Track) (v : Nat)
    (h1 : ensureVoice env.voice1 vcid = some v)
    (hp : env.play1 = PlayOutcome.clientException) :
    countEnsure (runIter env true vcid t cur0).1 = 2 ∧
    (∀ w, ensureVoice env.voice2 vcid = some w →
      countPlay (runIter env true vcid t cur0).1 = 2) ∧
    (ensureVoice env.voice2 vcid = none →
      countPlay (runIter env true vcid t cur0).1 = 1 ∧
      (runIter env true vcid t cur0).2.1 = IterOut.next ∧
      (runIter env true vcid t cur0).2.2 = none) ∧
    (env.play2Raises = true →
      (runIter env true vcid t cur0).2.1 = IterOut.next ∧
      (runIter env true vcid t cur0).2.2 = none) := by
  rcases h2 : ensureVoice env.voice2 vcid with _ | w
  · refine ⟨?_, ?_, ?_, ?_⟩
    · simp [runIter, waitPhase, h1, hp, h2, countEnsure]
    · intro w hw; cases hw
    · intro _
      refine ⟨?_, ?_, ?_⟩ <;>
        simp [runIter, waitPhase, h1, hp, h2, countPlay, playedTracks]
    · intro _
      constructor <;> simp [runIter, waitPhase, h1, hp, h2]
  · by_cases hr : env.play2Raises = true
    · refine ⟨?_, ?_, ?_, ?_⟩
      · simp [runIter, waitPhase, h1, hp, h2, hr, countEnsure]
      · intro w2 _
        simp [runIter, waitPhase, h1, hp, h2, hr, countPlay, playedTracks]
      · intro hcontra; cases hcontra
      · intro _
        constructor <;> simp [runIter, waitPhase, h1, hp, h2, hr]
    · by_cases hh : env.halted = true
      · refine ⟨?_, ?_, ?_, ?_⟩
        · simp [runIter, waitPhase, h1, hp, h2, hr, hh, countEnsure]
        · intro w2 _
          simp [runIter, waitPhase, h1, hp, h2, hr, hh, countPlay,
                playedTracks]
        · intro hcontra; cases hcontra
        · intro hcontra; exact absurd hcontra hr
      · by_cases hc : env.callbackFires = true
        · refine ⟨?_, ?_, ?_, ?_⟩
          · simp [runIter, waitPhase, h1, hp, h2, hr, hh, hc, countEnsure]
          · intro w2 _
            simp [runIter, waitPhase, h1, hp, h2, hr, hh, hc, countPlay,
                  playedTracks]
          · intro hcontra; cases hcontra
          · intro hcontra; exact absurd hcontra hr
        · refine ⟨?_, ?_, ?_, ?_⟩
          · simp [runIter, waitPhase, h1, hp, h2, hr, hh, hc, countEnsure]
          · intro w2 _
            simp [runIter, waitPhase, h1, hp, h2, hr, hh, hc, countPlay,
                  playedTracks]
          · intro hcontra; cases hcontra
          · intro hcontra; exact absurd hcontra hr

theorem client_exception_single_retry_witness :
    countEnsure (runIter clientExcIterEnv true (some 1) trackA none).1
      = 2 ∧
    (runIter clientExcIterEnv true (some 1) trackA none).2.1
      = IterOut.next :=
  ⟨(client_exception_single_retry clientExcIterEnv (some 1) trackA none 0
      rfl rfl).1,
   ((client_exception_single_retry clientExcIterEnv (some 1) trackA none 0
      rfl rfl).2.2.2 rfl).1⟩

theorem runIter_drop (env : IterEnv) (ls : Bool) (vcid : Option Nat)
    (t : Track) (cur0 : Option Track)
    (h1 : ensureVoice env.voice1 vcid = none) :
    runIter env ls vcid t cur0 =
      ([(Ev.setCurrent t, cur0), (Ev.ensureVoiceCall, some t),
        (Ev.dropNoConn t, some t), (Ev.clearCurrent, some t)],
       IterOut.next, none) := by
  simp [runIter, h1]

/-- C7: when `_ensure_voice` produces no usable connection, the worker
logs and drops that single track: `current` is cleared, no `vc.play` call
is attempted (no retry, no re-queueing), the iteration ends with `next`
(neither a crash nor a block escapes the loop body), and the run proceeds
exactly as a run over the remaining queue items. -/
theorem connect_failure_drops_track (env : IterEnv) (vcid : Option Nat)
    (t : Track) (cur0 : Option Track)
    (h1 : ensureVoice env.voice1 vcid = none) :
    runIter env true vcid t cur0 =
      ([(Ev.setCurrent t, cur0), (Ev.ensureVoiceCall, some t),
        (Ev.dropNoConn t, some t), (Ev.clearCurrent, some t)],
       IterOut.next, none) ∧
    countPlay (runIter env true vcid t cur0).1 = 0 ∧
    (∀ rest : List (Option Track),
      (playerRunGo env true false vcid (some t :: rest) cur0).2 =
        (playerRunGo env true false vcid rest none).2) := by
  refine ⟨runIter_drop env true vcid t cur0 h1, ?_, ?_⟩
  · simp [runIter_drop env true vcid t cur0 h1, countPlay, playedTracks]
  · intro rest
    simp only [playerRunGo, runIter_drop env true vcid t cur0 h1]
    simp

theorem connect_failure_drops_track_witness :
    countPlay (runIter noConnIterEnv true (some 3) trackA none).1 = 0 ∧
    (runIter noConnIterEnv true (some 3) trackA none).2.1
      = IterOut.next :=
  ⟨(connect_failure_drops_track noConnIterEnv (some 3) trackA none
      rfl).2.1,
   by
    rw [(connect_failure_drops_track noConnIterEnv (some 3) trackA none
      rfl).1]⟩

theorem ensureVoice_no_target (venv : VoiceEnv)
    (hlive : hasLiveConn venv = false) :
    ensureVoice venv none = none := by
  cases hg : venv.guildExists
  · simp [ensureVoice, ensureVoiceAux, hg]
  · rcases hv : venv.existingVC with _ | vc
    · simp [ensureVoice, ensureVoiceAux, hg, hv]
    · have hnc : venv.vcConnected vc = false := by
        simpa [hasLiveConn, hg, hv] using hlive
      simp [ensureVoice, ensureVoiceAux, hg, hv, hnc]

theorem playerRunGo_all_drop (env : IterEnv)
    (h0 : ensureVoice env.voice1 none = none) :
    ∀ ts : List Track,
      countPlay (playerRunGo env true false none (ts.map some) none).1
        = 0 ∧
      (∀ t ∈ ts, (Ev.dropNoConn t, some t) ∈
        (playerRunGo env true false none (ts.map some) none).1) ∧
      (playerRunGo env true false none (ts.map some) none).2.1
        = RunEnd.idle := by
  intro ts
  induction ts with
  | nil =>
    refine ⟨?_, ?_, rfl⟩
    · simp [playerRunGo, countPlay, playedTracks]
    · simp
  | cons t rest ih =>
    have hIter := runIter_drop env true none t none h0
    refine ⟨?_, ?_, ?_⟩
    · have h := ih.1
      simp [countPlay, playedTracks] at h
      simp [playerRunGo, hIter, countPlay, playedTracks,
            List.filterMap_append]
      exact h
    · intro t2 ht2
      rcases List.mem_cons.mp ht2 with rfl | ht2
      · simp [playerRunGo, hIter]
      · have h := ih.2.1 t2 ht2
        simp [playerRunGo, hIter, h]
    · simp [playerRunGo, hIter, ih.2.2]

/-- C10: on a session whose target channel was never set and whose guild
has no live connection, `_ensure_voice` returns `none`, so the worker
drops every dequeued track (emitting a drop event per track, never calling
`vc.play`) and ends idle waiting at the queue — it neither raises nor
blocks waiting for a connection. -/
theorem no_target_channel_all_dropped (env : IterEnv) (ts : List Track)
    (hlive : hasLiveConn env.voice1 = false) :
    ensureVoice env.voice1 none = none ∧
    countPlay (playerRun env (freshSession none ts)).1 = 0 ∧
    (∀ t ∈ ts, (Ev.dropNoConn t, some t) ∈
      (playerRun env (freshSession none ts)).1) ∧
    (playerRun env (freshSession none ts)).2.1 = RunEnd.idle := by
  have h0 := ensureVoice_no_target env.voice1 hlive
  have h := playerRunGo_all_drop env h0 ts
  exact ⟨h0, h.1, h.2.1, h.2.2⟩

theorem no_target_channel_all_dropped_witness :
    ensureVoice noConnIterEnv.voice1 none = none ∧
    countPlay (playerRun noConnIterEnv (freshSession none [trackA])).1
      = 0 :=
  ⟨(no_target_channel_all_dropped noConnIterEnv [trackA] rfl).1,
   (no_target_channel_all_dropped noConnIterEnv [trackA] rfl).2.1⟩

/-- C9 counterexample: in a fully successful iteration the worker performs
the 0.25 s settle delay BEFORE clearing `current` — the source runs
`await asyncio.sleep(0.25)` and only then `self.current = None`
(src/bot.py lines 428-429) — so the claimed ordering (clear `activeTrack`
first, then impose the settle delay) is false: both events occur in the
trace, yet the first clear does not precede the first settle delay; the
opposite order holds. -/
theorem settle_order_counterexample :
    Ev.sleepMs 250 ∈
      ((runIter goodIterEnv true (some 1) trackA none).1.map Prod.fst) ∧
    Ev.clearCurrent ∈
      ((runIter goodIterEnv true (some 1) trackA none).1.map Prod.fst) ∧
    clearsBeforeSettle
      ((runIter goodIterEnv true (some 1) trackA none).1.map Prod.fst)
      = false ∧
    settleBeforeClear
      ((runIter goodIterEnv true (some 1) trackA none).1.map Prod.fst)
      = true := by
  decide

/-- C9 (amended): at the end of each worker-loop iteration that completes
and continues, the worker imposes the settle delay first and then clears
`activeTrack`; the slot is nonetheless always cleared before the worker
returns to the queue pop: a continuing iteration ends with `current =
none`, the settle delay (whenever one occurs) precedes the clear, and on
any run every dequeue happens with `current = none`. -/
theorem settle_then_clear_amended (env : IterEnv) (vcid : Option Nat)
    (t : Track) (cur0 : Option Track) (q : List (Option Track))
    (h : (runIter env true vcid t cur0).2.1 = IterOut.next) :
    (runIter env true vcid t cur0).2.2 = none ∧
    (Ev.sleepMs 250 ∈ ((runIter env true vcid t cur0).1.map Prod.fst) →
      settleBeforeClear ((runIter env true vcid t cur0).1.map Prod.fst)
        = true) ∧
    dequeueClean (playerRunGo env true false vcid q none).1 = true := by
  refine ⟨runIter_next_current env true vcid t cur0 h, ?_,
          playerRunGo_dequeueClean env true vcid q⟩
  rcases h1 : ensureVoice env.voice1 vcid with _ | v
  · intro hm
    simp [runIter, h1] at hm
  · rcases hp : env.play1
    · by_cases hh : env.halted = true
      · simp [runIter, waitPhase, h1, hp, hh] at h
      · by_cases hc : env.callbackFires = true
        · intro _
          simp [runIter, waitPhase, h1, hp, hh, hc, settleBeforeClear,
                firstIdx, isSettleEv, isClearEv]
        · simp [runIter, waitPhase, h1, hp, hh, hc] at h
    · rcases h2 : ensureVoice env.voice2 vcid with _ | w
      · intro _
        simp [runIter, waitPhase, h1, hp, h2, settleBeforeClear,
              firstIdx, isSettleEv, isClearEv]
      · by_cases hr : env.play2Raises = true
        · intro _
          simp [runIter, waitPhase, h1, hp, h2, hr, settleBeforeClear,
                firstIdx, isSettleEv, isClearEv]
        · by_cases hh : env.halted = true
          · simp [runIter, waitPhase, h1, hp, h2, hr, hh] at h
          · by_cases hc : env.callbackFires = true
            · intro _
              simp [runIter, waitPhase, h1, hp, h2, hr, hh, hc,
                    settleBeforeClear, firstIdx, isSettleEv, isClearEv]
            · simp [runIter, waitPhase, h1, hp, h2, hr, hh, hc] at h
    · simp [runIter, waitPhase, h1, hp] at h

theorem settle_then_clear_amended_witness :
    (runIter goodIterEnv true (some 1) trackA none).2.2 = none ∧
    settleBeforeClear
      ((runIter goodIterEnv true (some 1) trackA none).1.map Prod.fst)
      = true :=
  ⟨(settle_then_clear_amended goodIterEnv (some 1) trackA none []
      (by decide)).1,
   (settle_then_clear_amended goodIterEnv (some 1) trackA none []
      (by decide)).2.1 (by decide)⟩
